import Mathlib

/-!
Shallow embedding of `ursabot/cli.py` (the local build reproduction CLI of
the ursabot project), together with theorems checking the natural-language
specification of the repository against it.

The embedding covers:
  * the result classification at the end of `project_build` (exit verdicts),
  * the source stamp construction (`repo`/`branch`/`commit`/`pull_request`),
  * `_use_local_sources` (volume injection and the `Source.notReally` flag),
  * `_handle_stdio_log` (log record classification and rendering),
  * the `--property` / `--mount-source` flag parsing (`dict(p.split(sep))`),
  * the control flow of `project_build` up to master construction,
  * the image filter (`Filter` / `Matching` from `ursabot/utils.py`, which is
    not part of the provided sources, hence modelled from the spec).

Python strings are modelled as Lean `String`, integers as `Nat`, `None` as
`Option.none`.  Fallible steps return `Except`.
-/

namespace Ursabot

/-! ## Buildbot result codes

Mirrors `buildbot.process.results`: the constants `SUCCESS`, `WARNINGS`,
`FAILURE`, `SKIPPED`, `EXCEPTION`, `RETRY`, `CANCELLED` are the indices of the
corresponding names in the `Results` list. -/

def SUCCESS : Nat := 0
def WARNINGS : Nat := 1
def FAILURE : Nat := 2
def SKIPPED : Nat := 3
def EXCEPTION : Nat := 4

def Results : List String :=
  ["success", "warnings", "failure", "skipped", "exception", "retry",
   "cancelled"]

/-- `Results[state]` of `cli.py` line 546 (lookup of the human readable
result-code name). -/
def resultName (state : Nat) : String := Results.getD state "unknown"

/-! ## Errors raised by the CLI

`click.UsageError` is a subclass of `click.ClickException`; click exits with
code 2 for a `UsageError` and code 1 for any other `ClickException`.  An
uncaught Python `ValueError` (raised by `dict(...)` on a malformed flag)
terminates the process with exit code 1 as well.  `configError` stands for
`UrsabotConfigErrors` (a `ClickException` wrapper around buildbot
`ConfigErrors`). -/

inductive CliError where
  | clickException (msg : String)
  | usageError (msg : String)
  | valueError (msg : String)
  | configError
deriving DecidableEq, Repr

def exitCodeOfError : CliError → Nat
  | .usageError _ => 2
  | _ => 1

/-- Process exit code of a finished CLI invocation: `0` on the success path,
the error's exit code otherwise. -/
def exitCodeOf : Except CliError String → Nat
  | .ok _ => 0
  | .error e => exitCodeOfError e

/-! ## Data model -/

/-- A builder of a project.  `isDocker` embeds
`isinstance(builder, DockerBuilder)`; `volumes` is the mutable volume list of
a docker builder. -/
structure Builder where
  name : String
  isDocker : Bool
  volumes : List String
deriving DecidableEq, Repr

structure Project where
  name : String
  repo : String
  builders : List Builder
deriving Repr

/-- The source stamp dictionary built at `cli.py` lines 507-513. -/
structure SourceStamp where
  codebase : String
  repository : String
  branch : String
  revision : Option String
  project : String
deriving DecidableEq, Repr

/-- The `result` dictionary of `project_build`: `complete`, the final
`results` code, and the log records that were streamed while building. -/
structure BuildResult where
  complete : Bool
  results : Nat
  logs : List String
deriving DecidableEq, Repr

/-- The process-wide state mutated by `_use_local_sources`:
`buildbot.steps.source.Source.notReally` is a class attribute, hence one
flag shared by every source step of every builder in the process. -/
structure ProcessState where
  notReally : Bool
deriving DecidableEq, Repr

/-- Whether a source-control checkout step executes as a fake.  A `Source`
step consults the class attribute `Source.notReally`, i.e. the process-wide
flag, never anything stored on the particular builder. -/
def stepFakesCheckout (st : ProcessState) (_b : Builder) : Bool :=
  st.notReally

/-! ## Path handling (`Path(src).expanduser()` of `_use_local_sources`) -/

/-- Python `s.split(sep)` for a one-character separator, on the character
list of the string.  `pySplit sep [] = [[]]` mirrors `''.split(sep) == ['']`. -/
def pySplit (sep : Char) : List Char → List (List Char)
  | [] => [[]]
  | c :: cs =>
      match pySplit sep cs with
      | [] => [[]]
      | h :: t => if c = sep then [] :: h :: t else (c :: h) :: t

/-- `str(PurePosixPath(p))`: repeated slashes and `.` segments collapse,
the empty path prints as `.`, and a leading double slash (but not three or
more) is preserved, as POSIX prescribes. -/
def posixNormalize (p : String) : String :=
  let segs := (pySplit '/' p.data).filter (fun s => s ≠ [] && s ≠ ['.'])
  let root : List Char :=
    match p.data with
    | '/' :: '/' :: '/' :: _ => ['/']
    | '/' :: '/' :: _ => ['/', '/']
    | '/' :: _ => ['/']
    | _ => []
  let body := List.intercalate ['/'] segs
  if root = [] && body = [] then "." else String.mk (root ++ body)

/-- `Path.expanduser` on an already-normalized path: a leading `~` segment is
replaced by the home directory (`home` is taken normalized and without a
trailing slash; the `~user` form is not modelled, no claim exercises it). -/
def expanduser (home : String) (p : String) : String :=
  match p.data with
  | ['~'] => home
  | '~' :: '/' :: rest => home ++ String.mk ('/' :: rest)
  | _ => p

/-- The host path as used by `_use_local_sources`:
`src = Path(src).expanduser()` rendered back to a string. -/
def hostResolved (home : String) (p : String) : String :=
  expanduser home (posixNormalize p)

/-- POSIX absoluteness of a path string. -/
def isAbsolute (p : String) : Bool :=
  match p.data with
  | '/' :: _ => true
  | _ => false

/-! ## `_use_local_sources` (cli.py lines 418-436) -/

/-- The `util.Interpolate` format string built for one `(src, dst)` entry. -/
def interpolateVolume (src dst : String) : String :=
  src ++ ":%(prop:docker_workdir)s/%(prop:builddir)s/" ++ dst ++ ":rw"

/-- `_use_local_sources(builder, sources)`: builds the volume list in the
iteration order of `sources.items()`, extends `builder.volumes` with it and
sets `Source.notReally = True`. -/
def use_local_sources (home : String) (b : Builder)
    (sources : List (String × String)) (st : ProcessState) :
    Builder × ProcessState :=
  let volumes := sources.foldl
    (fun acc sd => acc ++ [interpolateVolume (hostResolved home sd.1) sd.2])
    []
  ({ b with volumes := b.volumes ++ volumes }, { st with notReally := true })

/-! ## Source stamp construction (cli.py lines 504-513) -/

/-- Python `repo or project.repo`: a falsy override (`None` or the empty
string) falls back to the default. -/
def orDefault : Option String → String → String
  | none, d => d
  | some r, d => if r = "" then d else r

/-- Lines 505-506: `if pull_request is not None:
branch = f'refs/pull/\x7bpull_request\x7d/merge'`. -/
def resolveBranch : Option Nat → String → String
  | some pr, _ => "refs/pull/" ++ toString pr ++ "/merge"
  | none, branch => branch

def mkSourceStamp (projectName defaultRepo : String) (repo : Option String)
    (branch : String) (commit : Option String) (pull_request : Option Nat) :
    SourceStamp :=
  { codebase := ""
    repository := orDefault repo defaultRepo
    branch := resolveBranch pull_request branch
    revision := commit
    project := projectName }

/-! ## Result classification (cli.py lines 538-549) -/

/-- The tail of `project_build`: an incomplete result raises
`ClickException('Build has not completed!')`; a complete result in
`(SUCCESS, WARNINGS)` prints `Build successful!` and exits normally; any
other complete result raises a `ClickException` naming the result code. -/
def verdictOf (r : BuildResult) : Except CliError String :=
  if !r.complete then
    .error (.clickException "Build has not completed!")
  else if r.results = SUCCESS || r.results = WARNINGS then
    .ok "Build successful!"
  else
    .error (.clickException ("Build has failed with state " ++
      resultName r.results))

/-! ## Log relay (`_handle_stdio_log`, cli.py lines 403-415) -/

inductive LogCat where
  | header | stdout | stderr | unknown
deriving DecidableEq, Repr

inductive Color where
  | blue | red
deriving DecidableEq, Repr

/-- Python `l.startswith(c)` for a one-character pattern: the record is
nonempty and its first character is `c`. -/
def startsWith1 (l : String) (c : Char) : Bool :=
  l.data.head? = some c

/-- Classification implicit in the branch structure of `_handle_stdio_log`
(checked in source order `h`, `e`, `o`, else). -/
def classifyLog (l : String) : LogCat :=
  if startsWith1 l 'h' then .header
  else if startsWith1 l 'e' then .stderr
  else if startsWith1 l 'o' then .stdout
  else .unknown

/-- Rendering of one record: `h` → blue, prefix stripped; `e` → red, prefix
stripped; `o` → plain, prefix stripped; anything else → plain, untouched
(`l[1:]` is `String.drop 1` on the Lean side). -/
def renderLog (l : String) : Option Color × String :=
  if startsWith1 l 'h' then (some .blue, l.drop 1)
  else if startsWith1 l 'e' then (some .red, l.drop 1)
  else if startsWith1 l 'o' then (none, l.drop 1)
  else (none, l)

/-- `_handle_stdio_log` over a batch of new lines. -/
def handle_stdio_log (newlines : List String) : List (Option Color × String) :=
  newlines.map renderLog

/-- The visual treatment of a category: the color used (if any) and whether
the one-character prefix is stripped before echoing. -/
def treatmentOf : LogCat → Option Color × Bool
  | .header => (some .blue, true)
  | .stderr => (some .red, true)
  | .stdout => (none, true)
  | .unknown => (none, false)

/-- The claim's description of classification: by the first character only,
`h`/`o`/`e`, anything else (including the empty record) is unknown. -/
def classifyChar : Option Char → LogCat
  | some c =>
      if c = 'h' then .header
      else if c = 'o' then .stdout
      else if c = 'e' then .stderr
      else .unknown
  | none => .unknown

/-! ## Flag parsing (cli.py lines 492-493)

`sources = dict(p.split(':') for p in sources)` and
`properties = dict(p.split('=') for p in properties)`.  Python `str.split`
with a one-character separator and no maxsplit splits at every occurrence;
`dict(...)` raises `ValueError` on any element whose length is not 2. -/

/-- One element of the generator feeding `dict(...)`: the split must have
exactly two fields, otherwise `dict` raises `ValueError`. -/
def parsePair (sep : Char) (p : String) : Except CliError (String × String) :=
  match pySplit sep p.data with
  | [a, b] => .ok (String.mk a, String.mk b)
  | _ => .error (.valueError
      "dictionary update sequence element has wrong length")

/-- The whole generator, left to right: `dict(...)` consumes it lazily, so
the leftmost malformed element determines the raised error. -/
def parsePairs (sep : Char) : List String →
    Except CliError (List (String × String))
  | [] => .ok []
  | p :: items =>
      match parsePair sep p, parsePairs sep items with
      | .error e, _ => .error e
      | .ok _, .error e => .error e
      | .ok pr, .ok rest => .ok (pr :: rest)

/-- Insertion into a Python dict viewed as an ordered association list:
an existing key keeps its position and gets the new value, a new key is
appended. -/
def dictInsert (d : List (String × String)) (kv : String × String) :
    List (String × String) :=
  if d.any (fun e => e.1 = kv.1) then
    d.map (fun e => if e.1 = kv.1 then (e.1, kv.2) else e)
  else d ++ [kv]

/-- `dict(pairs)`. -/
def dictOfPairs (ps : List (String × String)) : List (String × String) :=
  ps.foldl dictInsert []

/-! ## `project_build` control flow (cli.py lines 464-549) -/

/-- ` - name` bullet list used in the builder-not-found message. -/
def unorderedList (names : List String) : String :=
  String.intercalate "\n" (names.map (fun n => " - " ++ n))

/-- The `ClickException` of cli.py lines 483-487, enumerating every builder
name of the project. -/
def builderNotFound (projectName builderName : String) (names : List String) :
    CliError :=
  .clickException ("Project " ++ projectName ++
    " doesn\x27t have a builder named `" ++ builderName ++
    "`.\n Select one from the following list: \n" ++ unorderedList names)

/-- The `click.UsageError` of cli.py lines 498-501. -/
def mountCapabilityError : CliError :=
  .usageError ("Mounting source directories is a feature only available " ++
    "for docker builders.")

/-- `attach_on = \x7bFAILURE, EXCEPTION\x7d if attach_on_failure else set()`. -/
def attachOnSet (attach_on_failure : Bool) : List Nat :=
  if attach_on_failure then [FAILURE, EXCEPTION] else []

/-- Observable outcome of one `project_build` invocation: whether the
ephemeral `TestMaster` was constructed and started, how many builds were
triggered, the final state of the selected builder (its volume list may have
been extended), the process-wide state, and the CLI outcome. -/
structure Trace where
  masterConstructed : Bool
  masterStarted : Bool
  buildsTriggered : Nat
  finalBuilder : Option Builder
  state : ProcessState
  outcome : Except CliError String
deriving Repr

/-- A trace for an invocation that failed before the master was built. -/
def earlyError (b : Option Builder) (st : ProcessState) (e : CliError) :
    Trace :=
  { masterConstructed := false
    masterStarted := false
    buildsTriggered := 0
    finalBuilder := b
    state := st
    outcome := .error e }

/-- `project_build` as a function.  `home` feeds `Path.expanduser`,
`st` is the process state on entry, `configOk` tells whether `TestMaster`
construction succeeds (it raises `ConfigErrors` otherwise), and
`masterBuild` abstracts the one build run by the ephemeral master.  The
steps follow the source order: builder lookup, flag parsing, capability
check and volume injection, source stamp construction, master construction,
build, verdict. -/
def project_build (home : String) (project : Project) (builder_name : String)
    (repo : Option String) (branch : String) (commit : Option String)
    (pull_request : Option Nat) (properties : List String)
    (sources : List String) (attach_on_failure : Bool) (st : ProcessState)
    (configOk : Bool)
    (masterBuild : Builder → SourceStamp → List (String × String) →
      List Nat → BuildResult) : Trace :=
  match project.builders.find? (fun b => b.name = builder_name) with
  | none =>
      earlyError none st
        (builderNotFound project.name builder_name
          (project.builders.map Builder.name))
  | some builder =>
      match parsePairs ':' sources with
      | .error e => earlyError (some builder) st e
      | .ok sourcePairs =>
          match parsePairs '=' properties with
          | .error e => earlyError (some builder) st e
          | .ok propPairs =>
              let sourcesDict := dictOfPairs sourcePairs
              let propsDict := dictOfPairs propPairs
              let injected : Except CliError (Builder × ProcessState) :=
                if sourcesDict.isEmpty then .ok (builder, st)
                else if builder.isDocker then
                  .ok (use_local_sources home builder sourcesDict st)
                else .error mountCapabilityError
              match injected with
              | .error e => earlyError (some builder) st e
              | .ok (builder2, st2) =>
                  let ss := mkSourceStamp project.name project.repo repo
                    branch commit pull_request
                  if configOk then
                    let result := masterBuild builder2 ss propsDict
                      (attachOnSet attach_on_failure)
                    { masterConstructed := true
                      masterStarted := true
                      buildsTriggered := 1
                      finalBuilder := some builder2
                      state := st2
                      outcome := verdictOf result }
                  else
                    { masterConstructed := false
                      masterStarted := false
                      buildsTriggered := 0
                      finalBuilder := some builder2
                      state := st2
                      outcome := .error .configError }

/-! ## Image filtering (`Filter` / `Matching`) -/

/-- Modelled from the spec: `Matching` of `ursabot/utils.py` is not under
`src/`; the spec describes its patterns as "either an exact string, a
wildcard expression supporting `*` (any sequence) and `?` (any single
character), or the special unset marker meaning the attribute must be
absent" (an exact string is the glob with no wildcard characters). -/
inductive Pattern where
  | glob (pat : String)
  | unset
deriving DecidableEq, Repr

/-- fnmatch-style wildcard matching with `*` and `?`. -/
def globMatch : List Char → List Char → Bool
  | [], [] => true
  | [], _ :: _ => false
  | '*' :: ps, [] => globMatch ps []
  | '*' :: ps, c :: cs => globMatch ps (c :: cs) || globMatch ('*' :: ps) cs
  | '?' :: _, [] => false
  | '?' :: ps, _ :: cs => globMatch ps cs
  | _ :: _, [] => false
  | p :: ps, c :: cs => p = c && globMatch ps cs
termination_by p s => (p.length, s.length)

/-- `Matching` applied to an attribute value (`none` models an absent
attribute such as an unset variant). -/
def matchValue : Pattern → Option String → Bool
  | .glob g, some v => globMatch g.data v.data
  | .glob _, none => false
  | .unset, none => true
  | .unset, some _ => false

/-- The nested `platform` attribute group of an image descriptor. -/
structure Platform where
  arch : String
  system : String
  distro : String
deriving DecidableEq, Repr

/-- Modelled from the spec: an artifact (docker image) descriptor with
attributes `name`, `tag`, `variant` (optionally absent) and the nested
`platform` group. -/
structure ImageDescriptor where
  name : String
  tag : String
  variant : Option String
  platform : Platform
deriving DecidableEq, Repr

/-- Modelled from the spec: the nested `Filter` over the platform group;
`none` entries are unconstrained attributes. -/
structure PlatformFilter where
  arch : Option Pattern
  system : Option Pattern
  distro : Option Pattern
deriving DecidableEq, Repr

/-- Modelled from the spec: `Filter` over image descriptors, a mapping from
attribute name to pattern or nested filter; absent entries impose no
constraint. -/
structure ImageFilter where
  name : Option Pattern
  tag : Option Pattern
  variant : Option Pattern
  platform : Option PlatformFilter
deriving DecidableEq, Repr

/-- An unconstrained attribute matches anything. -/
def matchesOpt : Option Pattern → Option String → Bool
  | none, _ => true
  | some p, v => matchValue p v

def platformMatches (pf : PlatformFilter) (pl : Platform) : Bool :=
  matchesOpt pf.arch (some pl.arch) &&
  matchesOpt pf.system (some pl.system) &&
  matchesOpt pf.distro (some pl.distro)

/-- Modelled from the spec: `matches(descriptor, predicate)` — every
constrained attribute must match, recursively through the platform group. -/
def matchesFilter (d : ImageDescriptor) (p : ImageFilter) : Bool :=
  matchesOpt p.name (some d.name) &&
  matchesOpt p.tag (some d.tag) &&
  matchesOpt p.variant d.variant &&
  (match p.platform with
   | none => true
   | some pf => platformMatches pf d.platform)

/-- The filter with no constrained attributes. -/
def emptyImageFilter : ImageFilter :=
  { name := none, tag := none, variant := none, platform := none }

/-- The image filter built by the `docker` command group (cli.py lines
347-356): every attribute gets a `Matching` pattern, with `no_variant`
turning the variant pattern into the unset marker (`Matching(None)`). -/
def cliImageFilter (name tag : String) (variant : Option String)
    (arch system distro : String) : ImageFilter :=
  { name := some (.glob name)
    tag := some (.glob tag)
    variant := some (match variant with
      | none => .unset
      | some v => .glob v)
    platform := some
      { arch := some (.glob arch)
        system := some (.glob system)
        distro := some (.glob distro) } }

/-! ## Helper lemmas -/

theorem pySplit_ne_nil (sep : Char) (l : List Char) : pySplit sep l ≠ [] := by
  induction l with
  | nil => simp [pySplit]
  | cons c cs ih =>
      simp only [pySplit]
      rcases h : pySplit sep cs with _ | ⟨hd, tl⟩
      · exact absurd h ih
      · by_cases hc : c = sep <;> simp [hc]

theorem pySplit_length (sep : Char) (l : List Char) :
    (pySplit sep l).length = l.count sep + 1 := by
  induction l with
  | nil => simp [pySplit]
  | cons c cs ih =>
      simp only [pySplit]
      rcases h : pySplit sep cs with _ | ⟨hd, tl⟩
      · exact absurd h (pySplit_ne_nil sep cs)
      · rw [h] at ih
        by_cases hc : c = sep
        · subst hc
          simp only [List.count_cons] at *
          simp at *
          omega
        · simp only [List.count_cons] at *
          simp [hc] at *
          omega

theorem parsePair_ok_count (sep : Char) (p : String) (pr : String × String)
    (h : parsePair sep p = .ok pr) : p.data.count sep = 1 := by
  have hl := pySplit_length sep p.data
  unfold parsePair at h
  rcases hs : pySplit sep p.data with _ | ⟨a, _ | ⟨b, _ | ⟨c, rest⟩⟩⟩ <;>
    rw [hs] at h hl <;> simp at h hl ⊢ <;> omega

theorem parsePair_error_of_count (sep : Char) (p : String)
    (h : p.data.count sep ≠ 1) :
    parsePair sep p = .error (.valueError
      "dictionary update sequence element has wrong length") := by
  have hl := pySplit_length sep p.data
  unfold parsePair
  rcases hs : pySplit sep p.data with _ | ⟨a, _ | ⟨b, _ | ⟨c, rest⟩⟩⟩ <;>
    rw [hs] at hl <;> simp at hl ⊢ <;> omega

theorem parsePairs_ok_count (sep : Char) (items : List String)
    (ps : List (String × String)) (h : parsePairs sep items = .ok ps) :
    ∀ p ∈ items, p.data.count sep = 1 := by
  induction items generalizing ps with
  | nil => simp
  | cons q rest ih =>
      intro p hp
      unfold parsePairs at h
      cases hq : parsePair sep q with
      | error e => rw [hq] at h; simp at h
      | ok pq =>
          rw [hq] at h
          cases hr : parsePairs sep rest with
          | error e => rw [hr] at h; simp at h
          | ok prs =>
              rw [hr] at h
              rcases List.mem_cons.mp hp with hp1 | hp1
              · subst hp1; exact parsePair_ok_count sep p pq hq
              · exact ih prs hr p hp1

theorem parsePairs_ok_length (sep : Char) (items : List String)
    (ps : List (String × String)) (h : parsePairs sep items = .ok ps) :
    ps.length = items.length := by
  induction items generalizing ps with
  | nil => unfold parsePairs at h; simp at h; simp [h]
  | cons q rest ih =>
      unfold parsePairs at h
      cases hq : parsePair sep q with
      | error e => rw [hq] at h; simp at h
      | ok pq =>
          rw [hq] at h
          cases hr : parsePairs sep rest with
          | error e => rw [hr] at h; simp at h
          | ok prs =>
              rw [hr] at h
              simp at h
              subst h
              simp [ih prs hr]

theorem parsePairs_error_of_mem (sep : Char) (items : List String) (p : String)
    (hp : p ∈ items) (hc : p.data.count sep ≠ 1) :
    ∃ e, parsePairs sep items = .error e := by
  induction items with
  | nil => cases hp
  | cons q rest ih =>
      rcases List.mem_cons.mp hp with h | h
      · subst h
        refine ⟨.valueError
          "dictionary update sequence element has wrong length", ?_⟩
        unfold parsePairs
        rw [parsePair_error_of_count sep p hc]
      · cases hq : parsePair sep q with
        | error e =>
            exact ⟨e, by unfold parsePairs; rw [hq]⟩
        | ok pq =>
            obtain ⟨e, he⟩ := ih h
            exact ⟨e, by unfold parsePairs; rw [hq, he]⟩

theorem dictInsert_ne_nil (d : List (String × String)) (kv : String × String) :
    dictInsert d kv ≠ [] := by
  unfold dictInsert
  split
  · rename_i h
    cases d with
    | nil => simp at h
    | cons a l => simp
  · simp

theorem foldl_dictInsert_ne_nil (ps : List (String × String))
    (acc : List (String × String)) (hacc : acc ≠ []) :
    ps.foldl dictInsert acc ≠ [] := by
  induction ps generalizing acc with
  | nil => simpa
  | cons p rest ih => exact ih (dictInsert acc p) (dictInsert_ne_nil acc p)

theorem dictOfPairs_ne_nil (ps : List (String × String)) (h : ps ≠ []) :
    dictOfPairs ps ≠ [] := by
  cases ps with
  | nil => simp at h
  | cons p rest =>
      unfold dictOfPairs
      simp only [List.foldl]
      exact foldl_dictInsert_ne_nil rest (dictInsert [] p) (dictInsert_ne_nil [] p)

theorem foldl_append_singleton {α β : Type} (f : α → β) (l : List α)
    (acc : List β) :
    l.foldl (fun a x => a ++ [f x]) acc = acc ++ l.map f := by
  induction l generalizing acc with
  | nil => simp
  | cons x xs ih => simp [List.foldl, ih]

theorem incomplete_message_distinct (s : String) :
    "Build has not completed!" ≠ "Build has failed with state " ++ s := by
  intro h
  have h2 := congrArg String.length h
  rw [String.length_append] at h2
  rw [show ("Build has not completed!".length) = 24 from rfl,
     show ("Build has failed with state ".length) = 28 from rfl] at h2
  omega

/-! ## Claim theorems -/

/-- C1: for every completed build, a `results` code of `SUCCESS` or
`WARNINGS` yields the zero-exit success outcome with the success message,
while `FAILURE` and `EXCEPTION` yield a non-zero exit carrying the
human-readable result-code name; an incomplete result yields a non-zero
exit with the distinct incomplete report regardless of the result code. -/
theorem result_classifier_spec (r : BuildResult) :
    (r.complete = true →
      ((r.results = SUCCESS ∨ r.results = WARNINGS) →
        verdictOf r = .ok "Build successful!" ∧
        exitCodeOf (verdictOf r) = 0) ∧
      (r.results = FAILURE →
        verdictOf r = .error
          (.clickException "Build has failed with state failure") ∧
        exitCodeOf (verdictOf r) ≠ 0) ∧
      (r.results = EXCEPTION →
        verdictOf r = .error
          (.clickException "Build has failed with state exception") ∧
        exitCodeOf (verdictOf r) ≠ 0)) ∧
    (r.complete = false →
      verdictOf r = .error (.clickException "Build has not completed!") ∧
      exitCodeOf (verdictOf r) ≠ 0 ∧
      (∀ s, "Build has not completed!" ≠ "Build has failed with state " ++ s) ∧
      "Build has not completed!" ≠ "Build successful!") := by
  obtain ⟨c, res, logs⟩ := r
  constructor
  · intro hc
    subst hc
    refine ⟨?_, ?_, ?_⟩
    · rintro (h | h) <;> subst h <;> simp [verdictOf, exitCodeOf, SUCCESS, WARNINGS]
    · intro h
      subst h
      simp [verdictOf, exitCodeOf, exitCodeOfError, FAILURE, SUCCESS, WARNINGS,
        resultName, Results]
    · intro h
      subst h
      simp [verdictOf, exitCodeOf, exitCodeOfError, EXCEPTION, SUCCESS, WARNINGS,
        resultName, Results]
  · intro hc
    subst hc
    refine ⟨by simp [verdictOf], by simp [verdictOf, exitCodeOf, exitCodeOfError],
      incomplete_message_distinct, by decide⟩

/-- C1 witness: a complete successful build exits zero with the success
message. -/
theorem result_classifier_spec_witness :
    verdictOf ⟨true, SUCCESS, []⟩ = .ok "Build successful!" ∧
    exitCodeOf (verdictOf ⟨true, SUCCESS, []⟩) = 0 :=
  ((result_classifier_spec ⟨true, SUCCESS, []⟩).1 rfl).1 (Or.inl rfl)

/-- C2: whenever a pull request id is supplied, the source stamp's branch is
the synthetic merge ref `refs/pull/<pr>/merge`, and the stamp does not
depend on the explicitly supplied branch at all. -/
theorem pull_request_branch_override (pr : Nat)
    (branch branch2 projectName defaultRepo : String) (repo : Option String)
    (commit : Option String) :
    (mkSourceStamp projectName defaultRepo repo branch commit
        (some pr)).branch = "refs/pull/" ++ toString pr ++ "/merge" ∧
    mkSourceStamp projectName defaultRepo repo branch commit (some pr)
      = mkSourceStamp projectName defaultRepo repo branch2 commit (some pr) := by
  constructor <;> simp [mkSourceStamp, resolveBranch]

/-- C2 witness: with pull request 42 and explicit branch `feature`, the
branch of the stamp is `refs/pull/42/merge`. -/
theorem pull_request_branch_override_witness :
    (mkSourceStamp "arrow" "https://example/repo" none "feature" none
        (some 42)).branch = "refs/pull/" ++ toString 42 ++ "/merge" ∧
    mkSourceStamp "arrow" "https://example/repo" none "feature" none (some 42)
      = mkSourceStamp "arrow" "https://example/repo" none "other" none
          (some 42) :=
  pull_request_branch_override 42 "feature" "other" "arrow"
    "https://example/repo" none none

/-- C4 counterexample: a relative host path such as `src` is only passed
through `Path.expanduser`, which leaves it relative; the volume entry is
built from the non-absolute path, refuting "the host path is resolved to an
absolute filesystem path before use". -/
theorem host_path_not_absolute_counterexample :
    (use_local_sources "/home/user" ⟨"bld", true, []⟩ [("src", "cpp")]
        ⟨false⟩).1.volumes
      = ["src:%(prop:docker_workdir)s/%(prop:builddir)s/cpp:rw"] ∧
    hostResolved "/home/user" "src" = "src" ∧
    isAbsolute (hostResolved "/home/user" "src") = false := by
  refine ⟨rfl, rfl, rfl⟩

/-- C4 amended: every host path is user-expanded (a leading `~` is replaced
by the home directory) and normalized — not necessarily made absolute — and
the resulting mount specifications are appended to the builder's volume
list in insertion-preserving order. -/
theorem use_local_sources_appends_in_order (home : String) (b : Builder)
    (sources : List (String × String)) (st : ProcessState) :
    (use_local_sources home b sources st).1.volumes
      = b.volumes ++ sources.map
          (fun sd => interpolateVolume (hostResolved home sd.1) sd.2) ∧
    (use_local_sources home b sources st).1.name = b.name := by
  unfold use_local_sources
  simp [foldl_append_singleton]

/-- C5: after `_use_local_sources` runs for a non-empty source mapping, the
process-wide `Source.notReally` flag is set, and every source-control step
of every builder in the process observes it (the flag is global mutable
state, not scoped to the one builder that was passed in). -/
theorem checkout_bypass_global (home : String) (b other : Builder)
    (sources : List (String × String)) (st : ProcessState)
    (hne : sources ≠ []) :
    (use_local_sources home b sources st).2.notReally = true ∧
    stepFakesCheckout (use_local_sources home b sources st).2 other = true := by
  simp [use_local_sources, stepFakesCheckout]

/-- C5 witness: injecting one mount for one builder flips the flag that a
completely different builder's checkout step reads. -/
theorem checkout_bypass_global_witness :
    ([(("src" : String), ("cpp" : String))] ≠ []) ∧
    (use_local_sources "/home/user" ⟨"bld", true, []⟩ [("src", "cpp")]
        ⟨false⟩).2.notReally = true ∧
    stepFakesCheckout
      (use_local_sources "/home/user" ⟨"bld", true, []⟩ [("src", "cpp")]
        ⟨false⟩).2 ⟨"unrelated", false, []⟩ = true :=
  ⟨by decide,
   checkout_bypass_global "/home/user" ⟨"bld", true, []⟩
     ⟨"unrelated", false, []⟩ [("src", "cpp")] ⟨false⟩ (by decide)⟩

/-- C7: with no repository override and no pull request, the source stamp is
exactly the record with empty codebase, the project's default repository,
the supplied branch, the supplied commit (possibly absent, passed through
without any validation of its syntax) and the project's name. -/
theorem default_sourcestamp_shape (projectName defaultRepo branch : String)
    (commit : Option String) :
    mkSourceStamp projectName defaultRepo none branch commit none
      = { codebase := ""
          repository := defaultRepo
          branch := branch
          revision := commit
          project := projectName } := by
  simp [mkSourceStamp, orDefault, resolveBranch]

/-- C7 witness: a concrete stamp, with a revision string no source-control
system would accept, is passed through unchanged. -/
theorem default_sourcestamp_shape_witness :
    mkSourceStamp "arrow" "https://example/repo" none "main"
        (some "not-a-sha!") none
      = { codebase := ""
          repository := "https://example/repo"
          branch := "main"
          revision := some "not-a-sha!"
          project := "arrow" } :=
  default_sourcestamp_shape "arrow" "https://example/repo" "main"
    (some "not-a-sha!")

/-- C8: a log record is classified solely by its first character (`h`
header, `o` stdout, `e` stderr, anything else — including the empty record
— unknown); each category has its own distinct stable visual treatment
(color and prefix-stripping); and the verdict is independent of the log
records, so classification has no effect on control flow or the final
verdict. -/
theorem log_classification_spec (l : String) (r : BuildResult)
    (ls ls2 : List String) :
    classifyLog l = classifyChar l.data.head? ∧
    classifyLog "" = .unknown ∧
    renderLog l = ((treatmentOf (classifyLog l)).1,
      if (treatmentOf (classifyLog l)).2 = true then l.drop 1 else l) ∧
    (∀ c c2 : LogCat, treatmentOf c = treatmentOf c2 → c = c2) ∧
    verdictOf ⟨r.complete, r.results, ls⟩
      = verdictOf ⟨r.complete, r.results, ls2⟩ := by
  refine ⟨?_, rfl, ?_, ?_, rfl⟩
  · rcases hl : l.data with _ | ⟨c, cs⟩
    · simp [classifyLog, classifyChar, startsWith1, hl]
    · by_cases h1 : c = 'h' <;> by_cases h2 : c = 'o' <;>
        by_cases h3 : c = 'e' <;>
        simp [classifyLog, classifyChar, startsWith1, hl, h1, h2, h3]
  · by_cases h1 : startsWith1 l 'h' <;> by_cases h2 : startsWith1 l 'e' <;>
      by_cases h3 : startsWith1 l 'o' <;>
      simp [renderLog, classifyLog, treatmentOf, h1, h2, h3]
  · intro c c2
    cases c <;> cases c2 <;> simp [treatmentOf]

/-- C8 witness: the theorem applied to a header record and a concrete
result. -/
theorem log_classification_spec_witness :
    classifyLog "hHello" = classifyChar "hHello".data.head? ∧
    classifyLog "" = .unknown ∧
    renderLog "hHello" = ((treatmentOf (classifyLog "hHello")).1,
      if (treatmentOf (classifyLog "hHello")).2 = true
      then "hHello".drop 1 else "hHello") ∧
    (∀ c c2 : LogCat, treatmentOf c = treatmentOf c2 → c = c2) ∧
    verdictOf ⟨true, SUCCESS, ["oout"]⟩ = verdictOf ⟨true, SUCCESS, []⟩ :=
  log_classification_spec "hHello" ⟨true, SUCCESS, []⟩ ["oout"] []

/-- C3: when mount sources are supplied for a builder that is not a docker
builder, `project_build` fails with the capability usage error (a
`click.UsageError`, the spec's `CapabilityError`) naming the feature and the
builder kind; the failure happens before the ephemeral master is constructed
or started, no build is triggered, the builder (and so its volume list) is
unchanged and the process state is untouched. -/
theorem mount_non_docker_capability_error (home : String) (project : Project)
    (builder_name : String) (repo : Option String) (branch : String)
    (commit : Option String) (pull_request : Option Nat)
    (properties sources : List String) (attach_on_failure : Bool)
    (st : ProcessState) (configOk : Bool)
    (masterBuild : Builder → SourceStamp → List (String × String) →
      List Nat → BuildResult)
    (b : Builder)
    (hfind : project.builders.find? (fun x => x.name = builder_name) = some b)
    (hdocker : b.isDocker = false)
    (hsrc : ∃ sp, parsePairs ':' sources = .ok sp)
    (hne : sources ≠ [])
    (hprop : ∃ pp, parsePairs '=' properties = .ok pp) :
    project_build home project builder_name repo branch commit pull_request
        properties sources attach_on_failure st configOk masterBuild
      = earlyError (some b) st mountCapabilityError ∧
    mountCapabilityError = .usageError
      ("Mounting source directories is a feature only available " ++
       "for docker builders.") ∧
    (earlyError (some b) st mountCapabilityError).masterConstructed = false ∧
    (earlyError (some b) st mountCapabilityError).masterStarted = false ∧
    (earlyError (some b) st mountCapabilityError).buildsTriggered = 0 ∧
    (earlyError (some b) st mountCapabilityError).finalBuilder = some b ∧
    (earlyError (some b) st mountCapabilityError).state = st := by
  obtain ⟨sp, hsp⟩ := hsrc
  obtain ⟨pp, hpp⟩ := hprop
  have hspne : sp ≠ [] := by
    intro hnil
    subst hnil
    have hlen := parsePairs_ok_length ':' sources [] hsp
    cases sources with
    | nil => exact hne rfl
    | cons a l => simp at hlen
  have hdict := dictOfPairs_ne_nil sp hspne
  have hempty : (dictOfPairs sp).isEmpty = false := by
    cases hd : dictOfPairs sp with
    | nil => exact absurd hd hdict
    | cons a l => rfl
  refine ⟨?_, rfl, rfl, rfl, rfl, rfl, rfl⟩
  unfold project_build
  rw [hfind, hsp, hpp]
  simp [hempty, hdocker]

/-- C3 witness: one mount flag against a non-docker builder. -/
theorem mount_non_docker_capability_error_witness :
    project_build "/h" ⟨"arrow", "https://r", [⟨"bld", false, []⟩]⟩ "bld"
        none "master" none none [] ["a:b"] false ⟨false⟩ true
        (fun _ _ _ _ => ⟨true, SUCCESS, []⟩)
      = earlyError (some ⟨"bld", false, []⟩) ⟨false⟩ mountCapabilityError ∧
    mountCapabilityError = .usageError
      ("Mounting source directories is a feature only available " ++
       "for docker builders.") ∧
    (earlyError (some ⟨"bld", false, []⟩) ⟨false⟩
      mountCapabilityError).masterConstructed = false ∧
    (earlyError (some ⟨"bld", false, []⟩) ⟨false⟩
      mountCapabilityError).masterStarted = false ∧
    (earlyError (some ⟨"bld", false, []⟩) ⟨false⟩
      mountCapabilityError).buildsTriggered = 0 ∧
    (earlyError (some ⟨"bld", false, []⟩) ⟨false⟩
      mountCapabilityError).finalBuilder = some ⟨"bld", false, []⟩ ∧
    (earlyError (some ⟨"bld", false, []⟩) ⟨false⟩
      mountCapabilityError).state = ⟨false⟩ :=
  mount_non_docker_capability_error "/h"
    ⟨"arrow", "https://r", [⟨"bld", false, []⟩]⟩ "bld" none "master" none
    none [] ["a:b"] false ⟨false⟩ true (fun _ _ _ _ => ⟨true, SUCCESS, []⟩)
    ⟨"bld", false, []⟩ rfl rfl ⟨[("a", "b")], rfl⟩ (by decide) ⟨[], rfl⟩

/-- C6: when the requested builder name is not among the project's builders,
`project_build` fails with the click exception whose message enumerates
every builder name of the project, the ephemeral master is never
constructed or started, and zero builds are triggered. -/
theorem unknown_builder_error (home : String) (project : Project)
    (builder_name : String) (repo : Option String) (branch : String)
    (commit : Option String) (pull_request : Option Nat)
    (properties sources : List String) (attach_on_failure : Bool)
    (st : ProcessState) (configOk : Bool)
    (masterBuild : Builder → SourceStamp → List (String × String) →
      List Nat → BuildResult)
    (hfind : project.builders.find? (fun x => x.name = builder_name) = none) :
    project_build home project builder_name repo branch commit pull_request
        properties sources attach_on_failure st configOk masterBuild
      = earlyError none st
          (builderNotFound project.name builder_name
            (project.builders.map Builder.name)) ∧
    builderNotFound project.name builder_name
        (project.builders.map Builder.name)
      = .clickException ("Project " ++ project.name ++
          " doesn\x27t have a builder named `" ++ builder_name ++
          "`.\n Select one from the following list: \n" ++
          unorderedList (project.builders.map Builder.name)) ∧
    (earlyError none st (builderNotFound project.name builder_name
      (project.builders.map Builder.name))).masterConstructed = false ∧
    (earlyError none st (builderNotFound project.name builder_name
      (project.builders.map Builder.name))).masterStarted = false ∧
    (earlyError none st (builderNotFound project.name builder_name
      (project.builders.map Builder.name))).buildsTriggered = 0 := by
  refine ⟨?_, rfl, rfl, rfl, rfl⟩
  unfold project_build
  rw [hfind]

/-- C6 witness: a project with two builders and an unknown requested name;
the raised message enumerates both builder names. -/
theorem unknown_builder_error_witness :
    project_build "/h"
        ⟨"arrow", "https://r", [⟨"b1", false, []⟩, ⟨"b2", true, []⟩]⟩ "zzz"
        none "master" none none [] [] false ⟨false⟩ true
        (fun _ _ _ _ => ⟨true, SUCCESS, []⟩)
      = earlyError none ⟨false⟩ (builderNotFound "arrow" "zzz" ["b1", "b2"]) ∧
    builderNotFound "arrow" "zzz" ["b1", "b2"]
      = .clickException ("Project " ++ "arrow" ++
          " doesn\x27t have a builder named `" ++ "zzz" ++
          "`.\n Select one from the following list: \n" ++
          unorderedList ["b1", "b2"]) ∧
    (earlyError none ⟨false⟩ (builderNotFound "arrow" "zzz"
      ["b1", "b2"])).masterConstructed = false ∧
    (earlyError none ⟨false⟩ (builderNotFound "arrow" "zzz"
      ["b1", "b2"])).masterStarted = false ∧
    (earlyError none ⟨false⟩ (builderNotFound "arrow" "zzz"
      ["b1", "b2"])).buildsTriggered = 0 :=
  unknown_builder_error "/h"
    ⟨"arrow", "https://r", [⟨"b1", false, []⟩, ⟨"b2", true, []⟩]⟩ "zzz" none
    "master" none none [] [] false ⟨false⟩ true
    (fun _ _ _ _ => ⟨true, SUCCESS, []⟩) rfl

/-- C9: a descriptor matches a filter iff every attribute the filter
constrains matches the descriptor's corresponding attribute, recursively
through the nested platform group; absent filter attributes impose no
constraint, and the filter with no constrained attributes matches every
descriptor. -/
theorem filter_matches_iff (d : ImageDescriptor) (p : ImageFilter) :
    (matchesFilter d p = true ↔
      ((∀ pat, p.name = some pat → matchValue pat (some d.name) = true) ∧
       (∀ pat, p.tag = some pat → matchValue pat (some d.tag) = true) ∧
       (∀ pat, p.variant = some pat → matchValue pat d.variant = true) ∧
       (∀ pf, p.platform = some pf →
         (∀ pat, pf.arch = some pat →
           matchValue pat (some d.platform.arch) = true) ∧
         (∀ pat, pf.system = some pat →
           matchValue pat (some d.platform.system) = true) ∧
         (∀ pat, pf.distro = some pat →
           matchValue pat (some d.platform.distro) = true)))) ∧
    matchesFilter d emptyImageFilter = true := by
  constructor
  · obtain ⟨n, t, v, pl⟩ := p
    rcases pl with _ | ⟨pa, psys, pd⟩ <;>
      cases n <;> cases t <;> cases v <;>
      first
        | (cases pa <;> cases psys <;> cases pd <;>
            simp [matchesFilter, matchesOpt, platformMatches, and_assoc])
        | simp [matchesFilter, matchesOpt, platformMatches, and_assoc]
  · simp [matchesFilter, emptyImageFilter, matchesOpt]

/-- C9 witness: the equivalence evaluated at a concrete descriptor and
a concrete constraining filter. -/
theorem filter_matches_iff_witness :
    (matchesFilter ⟨"ursabot", "latest", none, ⟨"amd64", "linux", "debian"⟩⟩
        (cliImageFilter "urs*" "l?test" none "amd64" "*" "*") = true ↔
      ((∀ pat, (cliImageFilter "urs*" "l?test" none "amd64" "*" "*").name
          = some pat → matchValue pat (some "ursabot") = true) ∧
       (∀ pat, (cliImageFilter "urs*" "l?test" none "amd64" "*" "*").tag
          = some pat → matchValue pat (some "latest") = true) ∧
       (∀ pat, (cliImageFilter "urs*" "l?test" none "amd64" "*" "*").variant
          = some pat → matchValue pat none = true) ∧
       (∀ pf, (cliImageFilter "urs*" "l?test" none "amd64" "*" "*").platform
          = some pf →
         (∀ pat, pf.arch = some pat → matchValue pat (some "amd64") = true) ∧
         (∀ pat, pf.system = some pat → matchValue pat (some "linux") = true) ∧
         (∀ pat, pf.distro = some pat →
           matchValue pat (some "debian") = true)))) ∧
    matchesFilter ⟨"ursabot", "latest", none, ⟨"amd64", "linux", "debian"⟩⟩
      emptyImageFilter = true :=
  filter_matches_iff ⟨"ursabot", "latest", none, ⟨"amd64", "linux", "debian"⟩⟩
    (cliImageFilter "urs*" "l?test" none "amd64" "*" "*")

/-- C10: a `--property` flag whose text does not contain exactly one `=`
(for example a value containing a second `=`), or a `--mount-source` flag
whose text does not contain exactly one `:`, makes `project_build` fail
before any master is created or build is triggered — the text is split at
every separator occurrence, not only at the first one. -/
theorem malformed_flag_error (home : String) (project : Project)
    (builder_name : String) (repo : Option String) (branch : String)
    (commit : Option String) (pull_request : Option Nat)
    (properties sources : List String) (attach_on_failure : Bool)
    (st : ProcessState) (configOk : Bool)
    (masterBuild : Builder → SourceStamp → List (String × String) →
      List Nat → BuildResult)
    (h : (∃ p ∈ properties, p.data.count '=' ≠ 1) ∨
         (∃ s ∈ sources, s.data.count ':' ≠ 1)) :
    ∃ e, (project_build home project builder_name repo branch commit
            pull_request properties sources attach_on_failure st configOk
            masterBuild).outcome = .error e ∧
         (project_build home project builder_name repo branch commit
            pull_request properties sources attach_on_failure st configOk
            masterBuild).masterConstructed = false ∧
         (project_build home project builder_name repo branch commit
            pull_request properties sources attach_on_failure st configOk
            masterBuild).masterStarted = false ∧
         (project_build home project builder_name repo branch commit
            pull_request properties sources attach_on_failure st configOk
            masterBuild).buildsTriggered = 0 := by
  unfold project_build
  cases hfind : project.builders.find? (fun x => x.name = builder_name) with
  | none => exact ⟨_, rfl, rfl, rfl, rfl⟩
  | some b =>
      cases hsp : parsePairs ':' sources with
      | error e => exact ⟨e, rfl, rfl, rfl, rfl⟩
      | ok sp =>
          rcases h with h | h
          · obtain ⟨p, hp, hc⟩ := h
            obtain ⟨e, he⟩ := parsePairs_error_of_mem '=' properties p hp hc
            rw [he]
            exact ⟨e, rfl, rfl, rfl, rfl⟩
          · obtain ⟨s, hs, hc⟩ := h
            exact absurd (parsePairs_ok_count ':' sources sp hsp s hs) hc

/-- C10 witness: the property flag `a=b=c` (its value contains `=`) aborts
the command before any master exists. -/
theorem malformed_flag_error_witness :
    ∃ e, (project_build "/h" ⟨"arrow", "https://r", [⟨"bld", true, []⟩]⟩
            "bld" none "master" none none ["a=b=c"] [] false ⟨false⟩ true
            (fun _ _ _ _ => ⟨true, SUCCESS, []⟩)).outcome = .error e ∧
         (project_build "/h" ⟨"arrow", "https://r", [⟨"bld", true, []⟩]⟩
            "bld" none "master" none none ["a=b=c"] [] false ⟨false⟩ true
            (fun _ _ _ _ => ⟨true, SUCCESS, []⟩)).masterConstructed = false ∧
         (project_build "/h" ⟨"arrow", "https://r", [⟨"bld", true, []⟩]⟩
            "bld" none "master" none none ["a=b=c"] [] false ⟨false⟩ true
            (fun _ _ _ _ => ⟨true, SUCCESS, []⟩)).masterStarted = false ∧
         (project_build "/h" ⟨"arrow", "https://r", [⟨"bld", true, []⟩]⟩
            "bld" none "master" none none ["a=b=c"] [] false ⟨false⟩ true
            (fun _ _ _ _ => ⟨true, SUCCESS, []⟩)).buildsTriggered = 0 :=
  malformed_flag_error "/h" ⟨"arrow", "https://r", [⟨"bld", true, []⟩]⟩
    "bld" none "master" none none ["a=b=c"] [] false ⟨false⟩ true
    (fun _ _ _ _ => ⟨true, SUCCESS, []⟩)
    (Or.inl ⟨"a=b=c", List.mem_singleton.mpr rfl, by decide⟩)

end Ursabot
